import Mathlib

/-!
Shallow embedding, in Lean 4, of the Lexi call-agent repository
(src/server.py, src/ai_call_engine.py, src/lexi_server.py), together with
models of the components that the design document specifies but that have no
implementation under src/ (media exporter, channel handler, outbound dial).
Theorems at the end settle the frozen claims about the system.
-/

namespace Lexi

/-! ## src/server.py — helper text extraction

`vapi_callback` extracts a caller name with
`re.findall(r"\b[A-Z][a-z]+\s[A-Z][a-z]+\b", summary)` (first match or
"Unknown") and a phone with `re.sub(r"\D", "", summary)` keeping the last 10
digits when at least 7 digits are present.  The regex pieces are modelled
over ASCII: `[A-Z]`/`[a-z]` are the ASCII ranges, `\s` the ASCII whitespace
class, `\w` letters, digits and underscore. -/

def isUpperAscii (c : Char) : Bool := 'A' ≤ c && c ≤ 'Z'

def isLowerAscii (c : Char) : Bool := 'a' ≤ c && c ≤ 'z'

def isSpaceRe (c : Char) : Bool :=
  c = ' ' || c = '\t' || c = '\n' || c = '\r' || c = '\x0b' || c = '\x0c'

def isWordChar (c : Char) : Bool :=
  isUpperAscii c || isLowerAscii c || c.isDigit || c = '_'

/-- Longest run of ASCII lowercase letters at the head of the list, with
the rest of the list (the greedy `[a-z]+` of the regex). -/
def takeLowerRun : List Char → List Char × List Char
  | [] => ([], [])
  | c :: cs =>
    if isLowerAscii c then
      let (run, rest) := takeLowerRun cs
      (c :: run, rest)
    else ([], c :: cs)

/-- Does `\b[A-Z][a-z]+\s[A-Z][a-z]+\b` match starting exactly here?
`prevIsWord` records whether the character before this position is a word
character (for the leading `\b`).  Greedy maximal lowercase runs are
equivalent to the backtracking regex here: a shortened `[a-z]+` run is
always followed by a lowercase letter, which can satisfy neither `\s` nor
`\b`. -/
def nameMatchAt (prevIsWord : Bool) : List Char → Option String
  | [] => none
  | c1 :: cs =>
    if prevIsWord then none
    else if isUpperAscii c1 then
      let (run1, rest1) := takeLowerRun cs
      if run1.isEmpty then none
      else
        match rest1 with
        | sp :: c2 :: cs2 =>
          if isSpaceRe sp && isUpperAscii c2 then
            let (run2, rest2) := takeLowerRun cs2
            if run2.isEmpty then none
            else if (match rest2 with
                     | [] => true
                     | d :: _ => !isWordChar d) then
              some (String.mk (c1 :: run1 ++ sp :: c2 :: run2))
            else none
          else none
        | _ => none
    else none

/-- First (leftmost) match of the full-name regex, scanning left to right as
`re.findall` does; `vapi_callback` keeps only `names[0]`. -/
def findFirstName (prevIsWord : Bool) : List Char → Option String
  | [] => none
  | c :: cs =>
    match nameMatchAt prevIsWord (c :: cs) with
    | some m => some m
    | none => findFirstName (isWordChar c) cs

/-- `names[0] if names else "Unknown"`. -/
def extractName (summary : String) : String :=
  (findFirstName false summary.toList).getD "Unknown"

/-- `digits = re.sub(r"\D", "", summary); phone = digits[-10:] if len(digits) >= 7`. -/
def extractPhone (summary : String) : String :=
  let digits := summary.toList.filter Char.isDigit
  if 7 ≤ digits.length then String.mk (digits.drop (digits.length - 10))
  else "Unknown"

/-! ## src/server.py — state, records and the `/vapi/callback` endpoint -/

structure PhoneBinding where
  user_id : Nat
  agent_id : Nat
  phone_number : String
  deriving Repr, DecidableEq

structure DbCallRecord where
  user_id : Option Nat
  agent_id : Option Nat
  name : String
  phone : String
  timestamp : String
  summary : String
  raw : String
  deriving Repr, DecidableEq

/-- One entry of the file-based fallback store `calls.json`
(`{"name": ..., "phone": ..., "timestamp": ...}`). -/
structure FileCall where
  name : String
  phone : String
  timestamp : String
  deriving Repr, DecidableEq

/-- The server state that `/vapi/callback` and `/calls` read and write:
the `bot_active` setting, the `phone_bindings` table, the `calls` DB table
and the file-based fallback list. -/
structure ServerState where
  botActive : Bool
  bindings : List PhoneBinding
  dbCalls : List DbCallRecord
  fileCalls : List FileCall
  deriving Repr, DecidableEq

/-- Whether the two database interactions of `vapi_callback` succeed:
`queryOk` for the `PhoneBinding` queries (lines 656–661, outside the inner
`try`), `commitOk` for `dbs.add(cr); dbs.commit()` (inside the inner `try`,
whose `except` falls back to the file store). -/
structure DbOracle where
  queryOk : Bool
  commitOk : Bool
  deriving Repr, DecidableEq

/-- The incoming POST body, reduced to the parts `vapi_callback` reads:
`msg.get("type")` and `msg.get("analysis", {}).get("summary", "") or ""`. -/
structure VapiMsg where
  type : Option String
  summary : String
  deriving Repr, DecidableEq

/-- The JSON responses `vapi_callback` can produce. -/
inductive VapiResp where
  | ignored (t : Option String)
  | inactive
  | ok
  | error (msg : String)
  deriving Repr, DecidableEq

structure VapiOut where
  resp : VapiResp
  status : Nat
  state : ServerState
  deriving Repr, DecidableEq

/-- Binding lookup of lines 652–663: exact match on `phone_number`, then
suffix match with the last 10 and then the last 7 characters of the
extracted phone. -/
def findBinding (bindings : List PhoneBinding) (phone : String) : Option PhoneBinding :=
  match bindings.find? (fun b => b.phone_number = phone) with
  | some b => some b
  | none =>
    match bindings.find? (fun b => b.phone_number.endsWith (phone.takeRight 10)) with
    | some b => some b
    | none => bindings.find? (fun b => b.phone_number.endsWith (phone.takeRight 7))

/-- `POST /vapi/callback` (src/server.py lines 624–698).  `now` stands for
the formatted Mountain-Time timestamp, `raw` for `json.dumps(data)`.
A failing binding query raises inside the outer `try` (the query is not
inside the inner one), so the outer handler answers 500 and no record of
any kind is stored; a failing commit is caught by the inner `except`,
which appends to the file-based fallback instead. -/
def vapiCallback (s : ServerState) (msg : VapiMsg) (now raw : String)
    (db : DbOracle) : VapiOut :=
  if msg.type ≠ some "end-of-call-report" then
    ⟨.ignored msg.type, 200, s⟩
  else if !s.botActive then
    ⟨.inactive, 200, s⟩
  else
    let name := extractName msg.summary
    let phone := extractPhone msg.summary
    let phoneKnown := phone ≠ "" ∧ phone ≠ "Unknown"
    if phoneKnown ∧ !db.queryOk then
      ⟨.error "db query failed", 500, s⟩
    else
      let binding := if phoneKnown then findBinding s.bindings phone else none
      let uid := binding.map (·.user_id)
      let aid := binding.map (·.agent_id)
      if db.commitOk then
        ⟨.ok, 200,
          { s with dbCalls := s.dbCalls ++ [⟨uid, aid, name, phone, now, msg.summary, raw⟩] }⟩
      else
        ⟨.ok, 200, { s with fileCalls := s.fileCalls ++ [⟨name, phone, now⟩] }⟩

/-! ## src/server.py — `DELETE /calls` -/

/-- One entry of the request body list `data.get("calls", [])`;
`d.get("name")` / `d.get("phone")` may be absent. -/
structure DelEntry where
  name : Option String
  phone : Option String
  deriving Repr, DecidableEq

/-- `c["name"] == d.get("name") and c["phone"] == d.get("phone")`
(comparison with an absent key is `False` in Python, matching `Option`
equality against `some`). -/
def delMatches (c : FileCall) (d : DelEntry) : Bool :=
  d.name = some c.name && d.phone = some c.phone

structure DelResult where
  remaining : List FileCall
  deleted : Nat
  deriving Repr, DecidableEq

/-- `DELETE /calls` (src/server.py lines 608–621): keeps the stored calls
matching no request entry and reports `{"deleted": len(to_delete)}`. -/
def deleteCalls (stored : List FileCall) (toDelete : List DelEntry) : DelResult :=
  ⟨stored.filter (fun c => !toDelete.any (fun d => delMatches c d)), toDelete.length⟩

/-! ## src/server.py — module-level execution order

Python executes a module top to bottom; a decorator such as
`@app.route(...)` is evaluated at `def` time and needs its names already
bound.  Each top-level statement is recorded with its source line, the
names it reads at module-load time and the names it binds. -/

structure PyStmt where
  line : Nat
  uses : List String
  defines : List String
  deriving Repr, DecidableEq

inductive LoadResult where
  | ok (env : List String)
  | nameError (name : String) (line : Nat)
  deriving Repr, DecidableEq

/-- Run the statements in order over an environment of bound names,
stopping with a `NameError` at the first statement reading an unbound
name. -/
def runStmts (env : List String) : List PyStmt → LoadResult
  | [] => .ok env
  | s :: rest =>
    match s.uses.find? (fun u => !env.contains u) with
    | some u => .nameError u s.line
    | none => runStmts (env ++ s.defines) rest

/-- The top-level statements of src/server.py from line 11 through line 72,
in source order.  Function bodies only read their globals when called, so a
plain `def` uses nothing at load time, while a decorated `def` reads the
decorator's names.  Module load fails before line 72, so later statements
cannot change the outcome. -/
def serverModuleStmts : List PyStmt :=
  [ ⟨11, [], ["os"]⟩
  , ⟨12, [], ["io"]⟩
  , ⟨13, [], ["json"]⟩
  , ⟨14, [], ["re"]⟩
  , ⟨15, [], ["threading"]⟩
  , ⟨16, [], ["logging"]⟩
  , ⟨17, [], ["sys"]⟩
  , ⟨18, [], ["base64"]⟩
  , ⟨19, [], ["requests"]⟩
  , ⟨20, [], ["datetime", "timedelta"]⟩
  , ⟨21, [], ["Flask", "request", "jsonify", "send_file"]⟩
  , ⟨22, [], ["ZoneInfo"]⟩
  , ⟨23, [], ["_t"]⟩
  , ⟨26, [], ["generate_password_hash", "check_password_hash"]⟩
  , ⟨27, [], ["jwt"]⟩
  , ⟨28, [], ["wraps"]⟩
  , ⟨29, [], ["create_engine", "Column", "Integer", "String", "Text",
              "Boolean", "DateTime", "ForeignKey"]⟩
  , ⟨30, [], ["declarative_base", "relationship", "sessionmaker"]⟩
  , ⟨33, [], ["USERS_FILE"]⟩
  , ⟨35, [], ["load_users"]⟩
  , ⟨41, [], ["save_users"]⟩
  , ⟨45, ["app"], ["register_user"]⟩
  , ⟨59, ["app"], ["login_user"]⟩
  , ⟨70, ["logging", "sys"], []⟩
  , ⟨71, ["logging"], ["log"]⟩
  , ⟨72, ["Flask"], ["app"]⟩ ]

/-! ## src/ai_call_engine.py — upstream call helpers and routes -/

/-- The body of an upstream HTTP response as the calling code sees it:
`json field raw` is a body that parses as JSON and whose field extraction
(`.get("text", "")` for transcription, the choices/message/content logic
for chat) yields `field`; `invalid raw` is a body on which `resp.json()` or
the extraction raises.  `raw` is the full `resp.text` / `resp.content`. -/
inductive UpBody where
  | json (field : Option String) (raw : String)
  | invalid (raw : String)
  deriving Repr, DecidableEq

def UpBody.raw : UpBody → String
  | .json _ r => r
  | .invalid r => r

/-- Outcome of a `requests.post` as delivered to the calling code: a
response (status, body, Content-Type header) or a transport-level exception
(DNS failure, connection refused, timeout). -/
inductive Upstream where
  | resp (status : Nat) (body : UpBody) (contentType : Option String)
  | transport (msg : String)
  deriving Repr, DecidableEq

/-- `Response.raise_for_status` raises `requests.HTTPError` exactly for
status codes in [400, 600); 1xx, 2xx and 3xx responses pass through. -/
def raiseForStatus (status : Nat) : Bool := 400 ≤ status && status < 600

/-- The Python exceptions the route handlers can catch around an upstream
call: `requests.HTTPError` (raised by `raise_for_status`, keeping the
response), a JSON/extraction error, or a transport exception. -/
inductive PyExc where
  | httpError (status : Nat) (body : String)
  | valueError (msg : String)
  | transport (msg : String)
  deriving Repr, DecidableEq

structure HttpRequest where
  url : String
  timeout : Option Nat
  deriving Repr, DecidableEq

def openaiBase : String := "https://api.openai.com/v1"

/-- `requests.post(f"{OPENAI_BASE}/audio/transcriptions", ..., timeout=60)`. -/
def transcribeRequest : HttpRequest := ⟨openaiBase ++ "/audio/transcriptions", some 60⟩

/-- `requests.post(f"{OPENAI_BASE}/chat/completions", ..., timeout=60)`. -/
def chatRequest : HttpRequest := ⟨openaiBase ++ "/chat/completions", some 60⟩

/-- `requests.post(f"{OPENAI_BASE}/audio/speech", ..., timeout=60)`. -/
def ttsRequest : HttpRequest := ⟨openaiBase ++ "/audio/speech", some 60⟩

/-- Model of `str(e)` for a `requests.HTTPError`: the message `requests`
builds starts with the status code ("404 Client Error: ... for url: ..."). -/
def httpErrStr (status : Nat) (url : String) : String :=
  toString status ++
    (if status < 500 then " Client Error for url: " else " Server Error for url: ") ++ url

/-- `openai_transcribe_wav` (src/ai_call_engine.py lines 15–26):
`resp.raise_for_status()` then `resp.json().get("text", "")`. -/
def openaiTranscribeWav (u : Upstream) : Except PyExc String :=
  match u with
  | .transport m => .error (.transport m)
  | .resp st body _ =>
    if raiseForStatus st then .error (.httpError st body.raw)
    else
      match body with
      | .json field _ => .ok (field.getD "")
      | .invalid r => .error (.valueError r)

/-- `openai_chat_reply` (lines 28–47): `resp.raise_for_status()`, extract
the reply text from the choices, `text.strip()`. -/
def openaiChatReply (u : Upstream) : Except PyExc String :=
  match u with
  | .transport m => .error (.transport m)
  | .resp st body _ =>
    if raiseForStatus st then .error (.httpError st body.raw)
    else
      match body with
      | .json field _ => .ok ((field.getD "").trim)
      | .invalid r => .error (.valueError r)

/-- `openai_tts_mp3` (lines 49–64): `resp.raise_for_status()` then
`(resp.content, resp.headers.get("Content-Type", "audio/mpeg"))`. -/
def openaiTtsMp3 (u : Upstream) : Except PyExc (String × String) :=
  match u with
  | .transport m => .error (.transport m)
  | .resp st body ct =>
    if raiseForStatus st then .error (.httpError st body.raw)
    else .ok (body.raw, ct.getD "audio/mpeg")

/-- The JSON (or audio) responses of the three routes. -/
inductive ApiResp where
  | okText (text : String)
  | okReply (reply : String)
  | audio (content : String) (mimetype : String)
  | errDetail (err : String) (detail : String)
  | err (msg : String)
  deriving Repr, DecidableEq

/-- A route outcome: the response, the HTTP status, and whether the
upstream `requests.post` was issued at all. -/
structure RouteOut where
  resp : ApiResp
  status : Nat
  upstreamCalled : Bool
  deriving Repr, DecidableEq

/-- `POST /stt` (lines 67–83): 400 without a file part; otherwise call the
transcription helper; `requests.HTTPError` becomes a 500 envelope with
`{"error": str(e), "detail": e.response.text}`, any other exception a 500
envelope with `{"error": str(e)}`. -/
def stt (hasFile : Bool) (u : Upstream) : RouteOut :=
  if !hasFile then ⟨.err "no file", 400, false⟩
  else
    match openaiTranscribeWav u with
    | .ok t => ⟨.okText t, 200, true⟩
    | .error (.httpError st b) => ⟨.errDetail (httpErrStr st transcribeRequest.url) b, 500, true⟩
    | .error (.valueError m) => ⟨.err m, 500, true⟩
    | .error (.transport m) => ⟨.err m, 500, true⟩

/-- Body of `POST /reply`: `data.get("text", "")`, `data.get("system_prompt")`. -/
structure ReplyBody where
  text : Option String
  system_prompt : Option String
  deriving Repr, DecidableEq

/-- `POST /reply` (lines 85–102).  `request.get_json(force=True) or {}`
turns an absent body into an empty dict; empty or missing `text` returns
400 before any upstream call. -/
def reply (body : Option ReplyBody) (u : Upstream) : RouteOut :=
  let data := body.getD ⟨none, none⟩
  let text := data.text.getD ""
  if text = "" then ⟨.err "no text provided", 400, false⟩
  else
    match openaiChatReply u with
    | .ok r => ⟨.okReply r, 200, true⟩
    | .error (.httpError st b) => ⟨.errDetail (httpErrStr st chatRequest.url) b, 500, true⟩
    | .error (.valueError m) => ⟨.err m, 500, true⟩
    | .error (.transport m) => ⟨.err m, 500, true⟩

/-- Body of `POST /tts`: `data.get("text", "")`, `data.get("voice", "alloy")`. -/
structure TtsBody where
  text : Option String
  voice : Option String
  deriving Repr, DecidableEq

/-- `POST /tts` (lines 104–122): empty or missing `text` returns 400 before
any upstream call; otherwise the synthesized audio is sent back. -/
def tts (body : Option TtsBody) (u : Upstream) : RouteOut :=
  let data := body.getD ⟨none, none⟩
  let text := data.text.getD ""
  if text = "" then ⟨.err "no text", 400, false⟩
  else
    match openaiTtsMp3 u with
    | .ok bc => ⟨.audio bc.1 bc.2, 200, true⟩
    | .error (.httpError st b) => ⟨.errDetail (httpErrStr st ttsRequest.url) b, 500, true⟩
    | .error (.valueError m) => ⟨.err m, 500, true⟩
    | .error (.transport m) => ⟨.err m, 500, true⟩

/-! ## src/lexi_server.py — the summary store -/

/-- JSON values, for the summary store (arrays omitted: the store treats
the value opaquely, and nothing below inspects it). -/
inductive JVal where
  | null
  | bool (b : Bool)
  | num (n : Int)
  | str (s : String)
  | obj (fields : List (String × JVal))

/-- `POST /summary` (src/lexi_server.py lines 19–26): the new value of the
global `latest_summary` is `data.get("summary", "No summary received.")`;
the previous value is discarded (last writer wins). -/
def receiveSummary (body : List (String × JVal)) (_latest : JVal) : JVal :=
  (body.lookup "summary").getD (.str "No summary received.")

/-- `GET /get_summary` (lines 28–30): returns
`{"summary": latest_summary}` and leaves the store untouched. -/
def getSummary (latest : JVal) : List (String × JVal) :=
  [("summary", latest)]

/-! ## Media Exporter (spec §4.4) — no implementation under src/ -/

/-- Modelled from the spec: segment-wise path normalization for the Media
Exporter, which is specified in §4.4 but has no code under src/.  `.` and
empty segments are dropped and `..` removes the previous segment, as the
operating system resolves them; `..` above the filesystem root stays at
the root. -/
def normalizeSegs (segs : List String) : List String :=
  segs.foldl
    (fun acc seg =>
      if seg = "" || seg = "." then acc
      else if seg = ".." then acc.dropLast
      else acc ++ [seg]) []

/-- Split a character list into the segments between `/` characters. -/
def splitSegsAux (cur : List Char) : List Char → List String
  | [] => [String.mk cur.reverse]
  | c :: cs =>
    if c = '/' then String.mk cur.reverse :: splitSegsAux [] cs
    else splitSegsAux (c :: cur) cs

/-- Split a requested name into its `/`-separated segments. -/
def splitSegs (s : String) : List String :=
  splitSegsAux [] s.toList

/-- Modelled from the spec: resolve a requested name against the media
root, as the filesystem would (so parent-directory segments in the name
can climb out of the root). -/
def resolveUnder (root : List String) (name : String) : List String :=
  normalizeSegs (root ++ splitSegs name)

/-- §4.4: `serve(requested_name) -> bytes | NotFound`; there is no error
case, so filesystem errors cannot leak. -/
inductive ServeResult where
  | bytes (content : String)
  | notFound
  deriving Repr, DecidableEq

/-- Filesystem lookup: the stored files, as resolved paths with contents. -/
def fsLookup : List (List String × String) → List String → Option String
  | [], _ => none
  | (p, c) :: rest, q => if p = q then some c else fsLookup rest q

/-- A successful filesystem lookup returns the contents of a stored file. -/
theorem fsLookup_mem {fs : List (List String × String)} {q : List String} {c : String}
    (h : fsLookup fs q = some c) : (q, c) ∈ fs := by
  induction fs with
  | nil => cases h
  | cons hd tl ih =>
    obtain ⟨p, d⟩ := hd
    simp only [fsLookup] at h
    split at h
    · next hpq =>
      injection h with hdc
      subst hpq
      subst hdc
      exact List.mem_cons_self _ _
    · exact List.mem_cons_of_mem _ (ih h)

/-- Modelled from the spec: the Media Exporter `serve` operation (§4.4),
which has no code under src/.  "`serve` must resolve the requested name
strictly inside the configured media root; any path-escaping name (e.g.
containing parent-directory segments that resolve outside the root) yields
`NotFound`, never a filesystem error leak."  `root` is the already-resolved
media root. -/
def serve (fs : List (List String × String)) (root : List String)
    (name : String) : ServeResult :=
  let p := resolveUnder root name
  if root.isPrefixOf p then
    match fsLookup fs p with
    | some content => .bytes content
    | none => .notFound
  else .notFound

/-! ## Channel Handler (spec §4.5) — no implementation under src/ -/

inductive Cmd where
  | answer (ch : String)
  | play (ch : String) (ref : String)
  | hangup (ch : String)
  deriving Repr, DecidableEq

inductive HandlerFinal where
  | hungUp
  | failed
  deriving Repr, DecidableEq

structure CallRec where
  channel : String
  outcome : String
  deriving Repr, DecidableEq

/-- A finished handler run: the control commands it issued in order, the
terminal state it reached, and the Call Records it emitted. -/
structure HandlerRun where
  cmds : List Cmd
  final : HandlerFinal
  records : List CallRec
  deriving Repr, DecidableEq

/-- §4.5 transition 2: "fall back to a static built-in sound reference". -/
def staticSoundRef : String := "sound:builtin-greeting"

/-- Modelled from the spec: the per-call Channel Handler state machine
(§4.5), which has no code under src/.  Transitions: answer failure goes to
`Failed` with a best-effort hangup; on synthesis failure the handler falls
back to the static built-in sound reference and still attempts playback;
on playback failure it proceeds to hangup anyway (so `_playOk` changes
nothing observable); hangup success ends in `Hung Up`, hangup failure
after answer in `Failed`; exactly one Call Record is emitted on entering a
terminal state.  `synth` is the synthesizer outcome: `some ref` on
success, `none` on `SynthesisError`. -/
def runHandler (ch : String) (answerOk : Bool) (synth : Option String)
    (_playOk hangupOk : Bool) : HandlerRun :=
  if answerOk then
    let ref := synth.getD staticSoundRef
    let cmds := [Cmd.answer ch, Cmd.play ch ref, Cmd.hangup ch]
    if hangupOk then ⟨cmds, .hungUp, [⟨ch, "finished"⟩]⟩
    else ⟨cmds, .failed, [⟨ch, "failed"⟩]⟩
  else
    ⟨[Cmd.answer ch, Cmd.hangup ch], .failed, [⟨ch, "failed"⟩]⟩

/-! ## Outbound Dial (spec §4.6, §6) — no implementation under src/ -/

/-- `POST /dial {endpoint|to, app?, exten?, context?, callerId?}` body;
`toDest` stands for the `to` field of the request. -/
structure DialBody where
  endpoint : Option String
  toDest : Option String
  appName : Option String
  exten : Option String
  context : Option String
  callerId : Option String
  deriving Repr, DecidableEq

inductive DialResp where
  | validationError (msg : String)
  | ok (channelId : String)
  | controlPlaneError (detail : String)
  deriving Repr, DecidableEq

/-- §4.6: "records a provisional Call Record with outcome \"ringing\"". -/
structure ProvRecord where
  channelId : String
  outcome : String
  deriving Repr, DecidableEq

structure DialOut where
  resp : DialResp
  status : Nat
  restIssued : Bool
  record : Option ProvRecord
  deriving Repr, DecidableEq

/-- Modelled from the spec: the outbound Dial operation, which has no code
under src/.  §4.6: "validates that either a direct endpoint address or a
destination is given; invokes `originate`; records a provisional Call
Record with outcome ringing"; §6 gives the body shape; §7: validation
errors return a client error status immediately, control-plane failures a
server error status with the proximate cause.  `originate` is the
control-plane outcome: the new channel id, or the error detail. -/
def dial (b : DialBody) (originate : Except String String) : DialOut :=
  if b.endpoint = none ∧ b.toDest = none then
    ⟨.validationError "endpoint or to required", 400, false, none⟩
  else
    match originate with
    | .ok ch => ⟨.ok ch, 200, true, some ⟨ch, "ringing"⟩⟩
    | .error m => ⟨.controlPlaneError m, 500, true, none⟩

/-! ## Theorems settling the claims -/

/-- Claim C1: for every incoming event whose message type is not the single
handled kind "end-of-call-report", `/vapi/callback` stores no call record
(state unchanged, in both the database and the file store), dispatches no
handling, acknowledges with HTTP 200, and processes any subsequent event
exactly as it would have from the original state. -/
theorem vapi_ignores_non_matching_events
    (s : ServerState) (msg : VapiMsg) (now raw : String) (db : DbOracle)
    (h : msg.type ≠ some "end-of-call-report") :
    vapiCallback s msg now raw db = ⟨.ignored msg.type, 200, s⟩ ∧
    ∀ msg2 now2 raw2 db2,
      vapiCallback (vapiCallback s msg now raw db).state msg2 now2 raw2 db2 =
        vapiCallback s msg2 now2 raw2 db2 := by
  have h1 : vapiCallback s msg now raw db = ⟨.ignored msg.type, 200, s⟩ := by
    simp [vapiCallback, h]
  exact ⟨h1, fun msg2 now2 raw2 db2 => by rw [h1]⟩

/-- Witness for C1: a concrete "status-update" event is acknowledged with
200 and leaves the state untouched. -/
theorem vapi_ignores_non_matching_events_witness :
    vapiCallback ⟨true, [], [], []⟩ ⟨some "status-update", "hi"⟩ "ts" "raw" ⟨true, true⟩ =
      ⟨.ignored (some "status-update"), 200, ⟨true, [], [], []⟩⟩ :=
  (vapi_ignores_non_matching_events _ _ _ _ _ (by decide)).1

/-- Claim C2 (failing input): an accepted end-of-call-report whose summary
yields a concrete phone number runs the unprotected `PhoneBinding` query of
src/server.py lines 656–661; when that query raises (database unreachable)
the outer handler answers 500 and neither the database write nor the file
fallback happens — no Call Record is emitted at all, against the claimed
"at least one of them occurs". -/
theorem vapi_db_down_loses_record :
    vapiCallback ⟨true, [], [], []⟩
        ⟨some "end-of-call-report", "Caller left number 3035551234"⟩
        "2025-01-01 09:00 AM MT" "rawjson" ⟨false, true⟩ =
      ⟨.error "db query failed", 500, ⟨true, [], [], []⟩⟩ ∧
    extractPhone "Caller left number 3035551234" = "3035551234" := by
  exact ⟨by decide, by decide⟩

/-- Claim C3: `serve` never leaks bytes from outside the media root — any
requested name whose resolution escapes the root yields `NotFound`, and
whenever `serve` returns bytes they are the contents of a file whose
resolved path lies under the root.  (The Media Exporter is modelled from
the spec, §4.4; src/ has no media-serving code.) -/
theorem serve_confined_to_media_root
    (fs : List (List String × String)) (root : List String) (name : String) :
    (root.isPrefixOf (resolveUnder root name) = false → serve fs root name = .notFound) ∧
    (∀ c, serve fs root name = .bytes c →
      ∃ p, root.isPrefixOf p = true ∧ (p, c) ∈ fs) := by
  constructor
  · intro h
    simp [serve, h]
  · intro c hc
    by_cases hp : root.isPrefixOf (resolveUnder root name)
    · simp only [serve, hp, if_true] at hc
      cases hlk : fsLookup fs (resolveUnder root name) with
      | none => rw [hlk] at hc; cases hc
      | some d =>
        rw [hlk] at hc
        cases hc
        exact ⟨resolveUnder root name, hp, fsLookup_mem hlk⟩
    · simp only [serve, hp, if_false] at hc
      cases hc

/-- Witness for C3: the classic escaping name resolves to /etc/passwd,
outside the media root, and `serve` answers `NotFound` even though the
file exists in the filesystem. -/
theorem serve_confined_to_media_root_witness :
    serve [(["etc", "passwd"], "secret")] ["media"] "../../etc/passwd" = .notFound :=
  (serve_confined_to_media_root _ _ _).1 (by decide)

/-- Claim C4: loading src/server.py executes its top-level statements in
order and fails with `NameError` on `app` at line 45 (the `@app.route`
decorator of `register_user`), since the only statement binding `app` is at
line 72; the module therefore never finishes loading and no endpoint in
the file is reachable. -/
theorem server_module_load_name_error :
    runStmts [] serverModuleStmts = .nameError "app" 45 ∧
    (serverModuleStmts.filter (fun st => st.defines.contains "app")).map PyStmt.line
      = [72] := by
  exact ⟨by decide, by decide⟩

/-- Claim C5: when speech synthesis fails (`synth = none`), the handler
still issues the playback command with the static fallback reference, still
reaches the `Hung Up` terminal state (hangup succeeding), and emits exactly
one Call Record.  (The Channel Handler is modelled from the spec, §4.5;
src/ has no handler code.) -/
theorem handler_synthesis_fallback (ch : String) (playOk : Bool) :
    (runHandler ch true none playOk true).final = .hungUp ∧
    Cmd.play ch staticSoundRef ∈ (runHandler ch true none playOk true).cmds ∧
    (runHandler ch true none playOk true).records = [⟨ch, "finished"⟩] := by
  refine ⟨rfl, ?_, rfl⟩
  simp [runHandler]

/-- Claim C6 (counterexample): a 304 upstream response — non-2xx — passes
`raise_for_status` unraised, so `/stt` returns it as a 200 success
envelope, not as a failure envelope carrying the status and body detail. -/
theorem stt_non2xx_success_counterexample :
    stt true (.resp 304 (.json (some "hello there") "bodytext") none) =
      ⟨.okText "hello there", 200, true⟩ ∧
    ¬(200 ≤ 304 ∧ 304 < 300) := by
  exact ⟨rfl, by decide⟩

/-- Claim C6 (amended): every upstream request carries the bounded 60s
timeout; a 4xx/5xx upstream response is returned as a structured JSON
failure envelope carrying the status (in the error string) and the body as
detail; a transport-level exception is returned as a structured JSON
failure envelope — never re-raised to the caller. -/
theorem stt_error_envelope (st : Nat) (b : UpBody) (ct : Option String)
    (h4 : 400 ≤ st) (h6 : st < 600) :
    stt true (.resp st b ct) =
      ⟨.errDetail (httpErrStr st transcribeRequest.url) b.raw, 500, true⟩ ∧
    (∀ m, stt true (.transport m) = ⟨.err m, 500, true⟩) ∧
    transcribeRequest.timeout = some 60 := by
  refine ⟨?_, fun m => rfl, rfl⟩
  have hr : raiseForStatus st = true := by
    simp only [raiseForStatus, Bool.and_eq_true, decide_eq_true_eq]
    omega
  simp [stt, openaiTranscribeWav, hr]

/-- Witness for the amended C6 at a concrete 404 with a non-JSON body. -/
theorem stt_error_envelope_witness :
    stt true (.resp 404 (.invalid "upstream broke") none) =
      ⟨.errDetail (httpErrStr 404 transcribeRequest.url) "upstream broke", 500, true⟩ :=
  (stt_error_envelope 404 (.invalid "upstream broke") none (by decide) (by decide)).1

/-- Claim C7: an outbound API request with missing or empty `text` is
answered 400 immediately by `/reply` and `/tts`, and no upstream call is
issued (`upstreamCalled = false`), whatever the upstream would have
returned. -/
theorem missing_text_rejected_before_upstream
    (rb : Option ReplyBody) (tb : Option TtsBody) (u v : Upstream)
    (hr : (rb.getD ⟨none, none⟩).text.getD "" = "")
    (ht : (tb.getD ⟨none, none⟩).text.getD "" = "") :
    reply rb u = ⟨.err "no text provided", 400, false⟩ ∧
    tts tb v = ⟨.err "no text", 400, false⟩ := by
  constructor
  · simp [reply, hr]
  · simp [tts, ht]

/-- Witness for C7: an absent body for `/reply` and an empty-text body for
`/tts` are both rejected with 400 and no upstream call. -/
theorem missing_text_rejected_before_upstream_witness :
    reply none (.transport "net down") = ⟨.err "no text provided", 400, false⟩ ∧
    tts (some ⟨some "", some "alloy"⟩) (.transport "net down") =
      ⟨.err "no text", 400, false⟩ :=
  missing_text_rejected_before_upstream none (some ⟨some "", some "alloy"⟩) _ _ rfl rfl

/-- Claim C8 (counterexample): under the §4.6 validation rule ("either a
direct endpoint address or a destination is given"), `dial` with
`endpoint = "line/42"` and no `to` passes validation, issues the originate
REST call, answers 200 and records the provisional ringing record — not
the claimed 400 with no REST call. -/
theorem dial_endpoint_only_counterexample :
    dial ⟨some "line/42", none, none, none, none, none⟩ (.ok "ch-7") =
      ⟨.ok "ch-7", 200, true, some ⟨"ch-7", "ringing"⟩⟩ := by
  decide

/-- Claim C8 (amended): a Dial request giving an endpoint address and no
`to` passes validation and issues the originate REST call (recording the
provisional ringing record on success, surfacing a server error on
control-plane failure); the 400 ValidationError with no REST call issued
occurs exactly when both `endpoint` and `to` are absent. -/
theorem dial_validation (e : String) (b : DialBody)
    (he : b.endpoint = none) (ht : b.toDest = none) :
    (∀ ch, dial ⟨some e, none, none, none, none, none⟩ (.ok ch) =
      ⟨.ok ch, 200, true, some ⟨ch, "ringing"⟩⟩) ∧
    (∀ m, dial ⟨some e, none, none, none, none, none⟩ (.error m) =
      ⟨.controlPlaneError m, 500, true, none⟩) ∧
    (∀ o, dial b o = ⟨.validationError "endpoint or to required", 400, false, none⟩) := by
  refine ⟨fun ch => rfl, fun m => rfl, fun o => ?_⟩
  simp [dial, he, ht]

/-- Witness for the amended C8 at concrete bodies. -/
theorem dial_validation_witness :
    dial ⟨some "line/42", none, none, none, none, none⟩ (.ok "ch-7") =
      ⟨.ok "ch-7", 200, true, some ⟨"ch-7", "ringing"⟩⟩ ∧
    dial ⟨none, none, none, none, none, none⟩ (.ok "ch-7") =
      ⟨.validationError "endpoint or to required", 400, false, none⟩ :=
  ⟨(dial_validation "line/42" ⟨none, none, none, none, none, none⟩ rfl rfl).1 "ch-7",
   (dial_validation "line/42" ⟨none, none, none, none, none, none⟩ rfl rfl).2.2 (.ok "ch-7")⟩

/-- Claim C9: the summary store is last-writer-wins and round-trips — after
a POST whose body maps "summary" to `s`, GET returns `{"summary": s}`
(whatever was stored before); a POST whose body lacks the key stores the
literal string "No summary received.". -/
theorem summary_store_round_trip (st : JVal) (body : List (String × JVal)) (s : JVal) :
    (body.lookup "summary" = some s →
      receiveSummary body st = s ∧
      getSummary (receiveSummary body st) = [("summary", s)]) ∧
    (body.lookup "summary" = none →
      receiveSummary body st = .str "No summary received.") := by
  constructor
  · intro h
    have h1 : receiveSummary body st = s := by simp [receiveSummary, h]
    exact ⟨h1, by rw [h1]; rfl⟩
  · intro h
    simp [receiveSummary, h]

/-- Witness for C9 at a concrete stored value and a concrete key-less body. -/
theorem summary_store_round_trip_witness :
    getSummary (receiveSummary [("summary", JVal.str "hello")] (JVal.str "old")) =
      [("summary", JVal.str "hello")] ∧
    receiveSummary [] (JVal.str "old") = JVal.str "No summary received." :=
  ⟨((summary_store_round_trip (JVal.str "old") [("summary", JVal.str "hello")]
      (JVal.str "hello")).1 rfl).2,
   (summary_store_round_trip (JVal.str "old") [] (JVal.str "hello")).2 rfl⟩

/-- Claim C10: `DELETE /calls` reports `deleted = length of the request
list` for every request, regardless of how many stored calls matched; in
the concrete instance nothing matches, nothing is removed, and the
response still says two deletions. -/
theorem delete_calls_reports_request_length
    (stored : List FileCall) (toDelete : List DelEntry) :
    (deleteCalls stored toDelete).deleted = toDelete.length ∧
    (deleteCalls [⟨"A", "1", "t"⟩] [⟨some "B", some "2"⟩, ⟨none, none⟩]).deleted = 2 ∧
    (deleteCalls [⟨"A", "1", "t"⟩] [⟨some "B", some "2"⟩, ⟨none, none⟩]).remaining =
      [⟨"A", "1", "t"⟩] := by
  exact ⟨rfl, by decide, by decide⟩

end Lexi
